import Mathlib

/-!
Shallow embedding of the recommendation and difficulty-adaptation engine of the
dsangels backend (modules ai_engine/recommendation.py, ai_engine/difficulty_adjuster.py,
ai_engine/content_generator.py, ai_engine/adapter.py, ai_engine/utils.py), together
with theorems settling the specification claims about it.

Conventions:
- Django model rows become Lean structures; nullable columns become Option fields.
- The Django cache is an association list from string keys to values; the two key
  namespaces used by the engine (themed explanations, adapted content) are kept as
  two typed stores, since their key prefixes are disjoint in the source.
- Fallible effects (ORM get, adapter construction) are Option / Except parameters;
  a caught Python exception corresponds to taking the error branch of the match.
- Functions that may call the generation backend also return the number of
  backend invocations performed during the call, so that claims of the form
  "the backend is never invoked" are expressible.
- Python floats are modelled as exact rationals; Python round is round-half-to-even.
-/

/-! ### Data model (core/models.py) -/

/-- Row of core.models.Content. `ageGroupId` is non-nullable in the schema;
`createdAt` is a timestamp ordinal (larger = newer). -/
structure ContentItem where
  id : Nat
  title : String
  description : String
  ageGroupId : Nat
  contentType : String
  difficultyBase : Int
  createdAt : Int
deriving DecidableEq, Repr

/-- Row of core.models.User restricted to the fields the engine reads;
`age_group` is a nullable foreign key (on_delete=SET_NULL). -/
structure UserRow where
  id : Nat
  ageGroupId : Option Nat
deriving DecidableEq, Repr

/-- Row of core.models.UserProgress restricted to the fields the recommendation
engine reads; `content` is a nullable foreign key, so `content_id` is Option. -/
structure ProgressRecord where
  userId : Nat
  contentId : Option Nat
  completionPercentage : ℚ
deriving DecidableEq, Repr

/-- The slice of the database the recommendation engine queries. -/
structure RecDB where
  users : List UserRow
  contents : List ContentItem
  progresses : List ProgressRecord
deriving Repr

/-- One element of the list returned by get_personalized_recommendations. -/
structure Recommendation where
  content_id : Nat
  title : String
  content_type : String
  difficulty : Int
  relevance_score : Int
deriving DecidableEq, Repr

/-! ### Recommendation engine (ai_engine/recommendation.py) -/

/-- `UserProgress.objects.filter(user_id=..., completion_percentage__gte=80)
.values_list('content_id', flat=True)`: content ids (including NULLs from
challenge-only records) of effectively-completed progress rows. -/
def completedContentIds (db : RecDB) (userId : Nat) : List (Option Nat) :=
  (db.progresses.filter
    (fun p => p.userId == userId && decide ((80 : ℚ) ≤ p.completionPercentage))).map
    (fun p => p.contentId)

/-- `UserProgress.objects.filter(user_id=...).values_list('content_id', flat=True)`. -/
def viewedContentIds (db : RecDB) (userId : Nat) : List (Option Nat) :=
  (db.progresses.filter (fun p => p.userId == userId)).map (fun p => p.contentId)

/-- `if content_type: query = query.filter(content_type=content_type)` —
a None or empty string is falsy and disables the filter. -/
def ctMatch (contentType : Option String) (c : ContentItem) : Bool :=
  match contentType with
  | none => true
  | some s => if s == "" then true else c.contentType == s

/-- `Content.objects.filter(age_group_id=age_group_id)` then the optional
content_type filter. A user whose age_group_id is NULL matches no content,
since Content.age_group is non-nullable. -/
def baseCandidates (db : RecDB) (user : UserRow) (contentType : Option String) :
    List ContentItem :=
  (db.contents.filter (fun c => some c.ageGroupId == user.ageGroupId)).filter
    (ctMatch contentType)

/-- `query.exclude(id__in=completed_content_ids)`. The subquery may contain NULL
content ids (challenge-only progress rows); SQL `id NOT IN (...)` is then never
true, so the whole candidate set collapses to empty — this NULL poisoning is
modelled faithfully. -/
def excludedCandidates (db : RecDB) (userId : Nat) (user : UserRow)
    (contentType : Option String) : List ContentItem :=
  let completed := completedContentIds db userId
  if completed.any (fun oc => oc == none) then []
  else (baseCandidates db user contentType).filter
    (fun c => !(completed.contains (some c.id)))

/-- A candidate together with the two annotations computed by the query. -/
structure AnnotatedContent where
  content : ContentItem
  inProgress : Int
  relevanceScore : Int
deriving DecidableEq, Repr

/-- The `in_progress` and `relevance_score` Case/When annotations. A NULL in the
viewed-ids subquery never matches `id IN (...)`, so only non-null ids count. -/
def annotate (db : RecDB) (userId : Nat) (c : ContentItem) : AnnotatedContent :=
  { content := c
    inProgress := if (viewedContentIds db userId).contains (some c.id) then 10 else 0
    relevanceScore := if c.difficultyBase ≤ 3 then 5 else 1 }

/-- Sort key of `order_by('-in_progress', '-relevance_score', 'difficulty_base',
'-created_at')`: descending columns are negated. -/
def recKey (a : AnnotatedContent) : Int × Int × Int × Int :=
  (-a.inProgress, -a.relevanceScore, a.content.difficultyBase, -a.content.createdAt)

/-- Lexicographic order on the four sort-key components. -/
def lex4 (p q : Int × Int × Int × Int) : Prop :=
  p.1 < q.1 ∨ (p.1 = q.1 ∧ (p.2.1 < q.2.1 ∨ (p.2.1 = q.2.1 ∧
    (p.2.2.1 < q.2.2.1 ∨ (p.2.2.1 = q.2.2.1 ∧ p.2.2.2 ≤ q.2.2.2)))))

instance lex4.decidable : DecidableRel lex4 := by
  intro p q
  unfold lex4
  infer_instance

instance lex4.total : IsTotal (Int × Int × Int × Int) lex4 := by
  constructor
  intro p q
  unfold lex4
  omega

instance lex4.trans : IsTrans (Int × Int × Int × Int) lex4 := by
  constructor
  intro p q r hpq hqr
  unfold lex4 at *
  omega

/-- Ordering relation of the recommendation query. -/
def recLE (a b : AnnotatedContent) : Prop := lex4 (recKey a) (recKey b)

instance recLE.decidable : DecidableRel recLE := by
  intro a b
  unfold recLE
  infer_instance

instance recLE.total : IsTotal AnnotatedContent recLE :=
  ⟨fun a b => lex4.total.total (recKey a) (recKey b)⟩

instance recLE.trans : IsTrans AnnotatedContent recLE :=
  ⟨fun _ _ _ hab hbc => lex4.trans.trans _ _ _ hab hbc⟩

/-- The annotated candidate list after the order_by clause (before slicing). -/
def sortedCandidates (db : RecDB) (userId : Nat) (contentType : Option String) :
    List AnnotatedContent :=
  match db.users.find? (fun u => u.id == userId) with
  | none => []
  | some user =>
      List.insertionSort recLE
        ((excludedCandidates db userId user contentType).map (annotate db userId))

/-- The output dictionary built per item: `relevance_score` is reported as the
sum of the two annotation signals. -/
def formatRec (a : AnnotatedContent) : Recommendation :=
  { content_id := a.content.id
    title := a.content.title
    content_type := a.content.contentType
    difficulty := a.content.difficultyBase
    relevance_score := a.relevanceScore + a.inProgress }

/-- ai_engine.recommendation.get_personalized_recommendations. A missing user
(User.DoesNotExist) returns []; a negative count makes the queryset slice raise
inside the try block, which the blanket except turns into [] as well. -/
def getPersonalizedRecommendations (db : RecDB) (userId : Nat) (count : Int)
    (contentType : Option String) : List Recommendation :=
  match db.users.find? (fun u => u.id == userId) with
  | none => []
  | some user =>
      if count < 0 then []
      else
        ((List.insertionSort recLE
            ((excludedCandidates db userId user contentType).map
              (annotate db userId))).take count.toNat).map formatRec

/-! ### Adaptive difficulty estimator (ai_engine/difficulty_adjuster.py) -/

/-- A UserProgress row joined with its (nullable) related content difficulty,
as read by `Avg('content__difficulty_base')`. -/
structure CompletionRecord where
  userId : Nat
  completionPercentage : ℚ
  contentDifficulty : Option Int
deriving DecidableEq, Repr

/-- Python round on an exact rational: round half to even (banker's rounding),
which is what round() does on floats. -/
def pythonRound (q : ℚ) : Int :=
  let f := ⌊q⌋
  let frac := q - f
  if frac < 1 / 2 then f
  else if 1 / 2 < frac then f + 1
  else if f % 2 = 0 then f else f + 1

/-- The rows of `UserProgress.objects.filter(user_id=...,
completion_percentage__gte=75)`. -/
def completedOf (records : List CompletionRecord) (userId : Nat) :
    List CompletionRecord :=
  records.filter
    (fun r => r.userId == userId && decide ((75 : ℚ) ≤ r.completionPercentage))

/-- The non-null joined content difficulties of the completed rows, as SQL AVG
sees them (NULLs from challenge-only rows are ignored). -/
def contentDifficulties (completed : List CompletionRecord) : List Int :=
  completed.filterMap (fun r => r.contentDifficulty)

/-- The mean of the non-null joined content difficulties, as SQL AVG computes it
(NULLs ignored); none when every row has a NULL content. -/
def avgContentDifficulty (completed : List CompletionRecord) : Option ℚ :=
  match contentDifficulties completed with
  | [] => none
  | vals => some ((vals.map (fun z => (z : ℚ))).sum / vals.length)

/-- ai_engine.difficulty_adjuster.get_appropriate_difficulty_level. The fetch
argument models the ORM access inside the try block; a raised exception takes
the Except.error branch and returns the safe default 1. The Python
`avg_difficulty = ... or 1` maps both a NULL average and an average of exactly
0.0 to 1. -/
def get_appropriate_difficulty_level (fetch : Except String (List CompletionRecord))
    (userId : Nat) : Int :=
  match fetch with
  | .error _ => 1
  | .ok records =>
      let completed := completedOf records userId
      if completed.isEmpty then 1
      else
        let avgDifficulty : ℚ :=
          match avgContentDifficulty completed with
          | none => 1
          | some q => if q = 0 then 1 else q
        let recommended := max 1 (min 5 (pythonRound avgDifficulty))
        let highCount :=
          (completed.filter (fun r => decide ((90 : ℚ) ≤ r.completionPercentage))).length
        if (7 : ℚ) / 10 ≤ (highCount : ℚ) / (completed.length : ℚ) then
          min 5 (recommended + 1)
        else recommended

/-! ### Model info (ai_engine/utils.py) -/

/-- The names bound at module level in ai_engine/utils.py: the typing imports,
the three module imports, the logger, and the four function definitions.
`MockAdapter` is never imported at module level (get_model_info only imports
get_current_adapter, and only into its local scope). -/
def utilsModuleGlobals : List String :=
  ["Dict", "Any", "List", "Optional", "os", "json", "logging", "logger",
   "initialize_curated_content", "add_curated_explanation", "add_curated_hint",
   "get_model_info"]

/-- The runtime facts about the active adapter instance that get_model_info
could observe: its class name and whether it is actually an instance of
MockAdapter. -/
structure AdapterInstance where
  className : String
  isMockInstance : Bool
deriving DecidableEq, Repr

/-- The dictionary returned by get_model_info. -/
structure ModelInfo where
  adapter_type : String
  is_mock : Bool
  status : String
deriving DecidableEq, Repr

/-- ai_engine.utils.get_model_info: the is_mock field is computed as
`isinstance(adapter, MockAdapter) if 'MockAdapter' in globals() else False`,
where globals() is the utils module namespace. -/
def get_model_info (adapter : AdapterInstance) : ModelInfo :=
  { adapter_type := adapter.className
    is_mock :=
      if utilsModuleGlobals.contains "MockAdapter" then adapter.isMockInstance
      else false
    status := "active" }

/-! ### Generation backend adapter (ai_engine/adapter.py) -/

/-- An apostrophe character, used to build the literal fallback strings. -/
def apos : String := String.mk [Char.ofNat 39]

/-- The hardcoded degraded response every concrete adapter returns when the
transport call or response parsing fails inside generate_text. -/
def fallbackText : String :=
  "I couldn" ++ apos ++ "t generate a response at this time."

/-- OpenAIAdapter.generate_text over the outcome of the transport call: the
message content of a successful response is stripped and returned; any raised
error (network, non-2xx, parse) is caught and replaced by the fallback string.
The function never raises to its caller. -/
def openai_generate_text (transport : Except String String) : String :=
  match transport with
  | .ok content => content.trim
  | .error _ => fallbackText

/-! ### Result cache (django.core.cache, as used by content_generator.py) -/

/-- A key/value store; set prepends and get takes the most recent binding.
Entries inside the TTL window are present, expired entries are absent. -/
abbrev CacheStore (α : Type) : Type := List (String × α)

def cacheGet {α : Type} (cache : CacheStore α) (key : String) : Option α :=
  (List.find? (fun e => e.1 == key) cache).map (fun e => e.2)

def cacheSet {α : Type} (cache : CacheStore α) (key : String) (v : α) :
    CacheStore α :=
  (key, v) :: cache

/-! ### Curated content store (ai_engine/content_generator.py helpers) -/

/-- One entry of curated_content/explanations.json. -/
structure CuratedExplanation where
  concept : String
  theme : String
  age_group : String
  explanation : String
deriving DecidableEq, Repr

/-- Python str.lower, character by character. -/
def strLower (s : String) : String := String.mk (s.toList.map Char.toLower)

/-- The matching test of _get_curated_explanation: case-insensitive concept,
exact theme, and age group matched exactly unless the query age group is None. -/
def curatedMatch (concept theme : String) (ageGroup : Option String)
    (item : CuratedExplanation) : Bool :=
  strLower item.concept == strLower concept && item.theme == theme &&
    (match ageGroup with
     | none => true
     | some ag => item.age_group == ag)

/-- ai_engine.content_generator._get_curated_explanation: the explanation text
of the first matching entry, None when there is no match (a missing or
unreadable store file behaves as an empty entry list). -/
def curatedLookup (store : List CuratedExplanation) (concept theme : String)
    (ageGroup : Option String) : Option String :=
  (store.find? (curatedMatch concept theme ageGroup)).map
    (fun item => item.explanation)

/-! ### Structured-output parsing in adapt_content_difficulty -/

/-- Characters matched by the regex class of colon and whitespace. -/
def labelSepChar (c : Char) : Bool := c == ':' || c.isWhitespace

/-- Given the text right after an occurrence of the label, the regex
`label[:\s]+(.*)` requires at least one separator character, greedily consumes
the separator run, and captures to the end of the line (or, with DOTALL, to the
end of the string). -/
def matchAfterLabel (dotall : Bool) (cs : List Char) : Option (List Char) :=
  match cs with
  | [] => none
  | c :: rest =>
      if labelSepChar c then
        let body := rest.dropWhile labelSepChar
        some (if dotall then body else body.takeWhile (fun ch => ch ≠ '\n'))
      else none

/-- re.search for `label[:\s]+(.*)`: leftmost occurrence of the label followed
by at least one separator; returns the captured group. -/
def searchLabel (label : List Char) (dotall : Bool) : List Char → Option (List Char)
  | [] => none
  | c :: rest =>
      if label.isPrefixOf (c :: rest) then
        match matchAfterLabel dotall ((c :: rest).drop label.length) with
        | some captured => some captured
        | none => searchLabel label dotall rest
      else searchLabel label dotall rest

/-- String wrapper for searchLabel. -/
def reSearchLabel (label : String) (dotall : Bool) (s : String) : Option String :=
  (searchLabel label.toList dotall s.toList).map List.asString

/-! ### Themed explanation generation (ai_engine/content_generator.py) -/

/-- The fixed environment of one call: the curated store contents and the
outcome of get_current_adapter(). A successful adapter is its generate_text
behaviour, a total function from prompt to returned text (the concrete adapters
never raise from generate_text: transport failures are swallowed there). An
error models an exception raised while obtaining the adapter, for example a
missing provider credential in the adapter constructor. -/
structure GenEnv where
  curated : List CuratedExplanation
  adapterGet : Except String (String → String)

/-- Python str() of the optional age group, as interpolated into the cache key
f-string: None prints as the string None. -/
def pyOptStr : Option String → String
  | none => "None"
  | some s => s

/-- The cache key f-string of generate_themed_explanation. -/
def themedKey (concept theme : String) (ageGroup : Option String) : String :=
  "themed_explanation:" ++ concept ++ ":" ++ theme ++ ":" ++ pyOptStr ageGroup

/-- The generation prompt of generate_themed_explanation (whitespace condensed),
including the optional age context and base-explanation suffix. -/
def themedPrompt (concept theme : String) (ageGroup : Option String)
    (baseExplanation : Option String) : String :=
  let ageContext := match ageGroup with
    | none => ""
    | some ag => " for " ++ ag
  let core :=
    "\n    Please explain the programming concept of " ++ apos ++ concept ++ apos ++
    " using a " ++ theme ++ " theme" ++ ageContext ++ ".\n" ++
    "    Make it engaging, visual, and easy to understand.\n" ++
    "    Use metaphors related to " ++ theme ++ " to make the concept relatable.\n    "
  match baseExplanation with
  | none => core
  | some b =>
      if b == "" then core
      else core ++ "\n\nHere" ++ apos ++ "s a basic explanation to enhance: " ++ b

/-- The default message of the final fallback branch of
generate_themed_explanation. -/
def themedFallback (concept theme : String) : String :=
  "Sorry, I couldn" ++ apos ++ "t generate a " ++ theme ++
    "-themed explanation for " ++ concept ++ " right now."

/-- The value of `base_explanation or default` in the except branch of
generate_themed_explanation: the base explanation when truthy, else the default
message. -/
def themedDegraded (concept theme : String) (baseExplanation : Option String) :
    String :=
  match baseExplanation with
  | some b => if b == "" then themedFallback concept theme else b
  | none => themedFallback concept theme

/-- The generation branch reached when both the cache and the curated store
miss: on a working adapter the result is generated, cached and returned (one
backend invocation); if obtaining the adapter raised, the exception is caught
and the base explanation (when truthy) or the default message is returned, with
no cache write and no backend invocation. -/
def themedGenerate (env : GenEnv) (cache : CacheStore String)
    (key concept theme : String) (ageGroup baseExplanation : Option String) :
    String × CacheStore String × Nat :=
  match env.adapterGet with
  | .ok gen =>
      let explanation := gen (themedPrompt concept theme ageGroup baseExplanation)
      (explanation, cacheSet cache key explanation, 1)
  | .error _ => (themedDegraded concept theme baseExplanation, cache, 0)

/-- The part of generate_themed_explanation after the cache probe: a truthy
curated explanation is cached and returned without invoking the backend;
otherwise generation is attempted. -/
def themedUncached (env : GenEnv) (cache : CacheStore String)
    (key concept theme : String) (ageGroup baseExplanation : Option String) :
    String × CacheStore String × Nat :=
  match curatedLookup env.curated concept theme ageGroup with
  | some e =>
      if e == "" then themedGenerate env cache key concept theme ageGroup baseExplanation
      else (e, cacheSet cache key e, 0)
  | none => themedGenerate env cache key concept theme ageGroup baseExplanation

/-- ai_engine.content_generator.generate_themed_explanation. The result triple
is (returned text, cache after the call, number of backend generate_text
invocations). The cache probe `if cached_result:` treats a cached empty string
as a miss. -/
def generate_themed_explanation (env : GenEnv) (cache : CacheStore String)
    (concept theme : String) (ageGroup baseExplanation : Option String) :
    String × CacheStore String × Nat :=
  let key := themedKey concept theme ageGroup
  match cacheGet cache key with
  | some cached =>
      if cached == "" then themedUncached env cache key concept theme ageGroup baseExplanation
      else (cached, cache, 0)
  | none => themedUncached env cache key concept theme ageGroup baseExplanation

/-! ### Difficulty adaptation (ai_engine/content_generator.py, adapt_content_difficulty) -/

/-- The dictionary returned by adapt_content_difficulty: each Option field is a
key the code may or may not put in the dictionary, adapted is always present. -/
structure AdaptResult where
  title : Option String := none
  description : Option String := none
  difficulty : Option Int := none
  original_difficulty : Option Int := none
  target_difficulty : Option Int := none
  adapted : Bool := false
  error : Option String := none
  original_title : Option String := none
deriving DecidableEq, Repr

/-- The cache key f-string of adapt_content_difficulty. -/
def adaptKey (contentId : Nat) (targetDifficulty : Int) : String :=
  "adapted_content:" ++ toString contentId ++ ":" ++ toString targetDifficulty

/-- The result of the short-circuit branch taken when the target difficulty
equals the content difficulty_base. -/
def unchangedResult (content : ContentItem) : AdaptResult :=
  { title := some content.title
    description := some content.description
    difficulty := some content.difficultyBase
    adapted := false }

/-- The generation prompt of adapt_content_difficulty (whitespace condensed). -/
def adaptPrompt (content : ContentItem) (targetDifficulty : Int) : String :=
  let changeDirection :=
    if targetDifficulty < content.difficultyBase then "simpler" else "more complex"
  "\n    Original content: " ++ content.title ++
  "\n    Description: " ++ content.description ++
  "\n    Current difficulty level: " ++ toString content.difficultyBase ++
  " (out of 5)\n\n    Please adapt this content to make it " ++ changeDirection ++
  ", at a difficulty level of " ++ toString targetDifficulty ++ " out of 5." ++
  "\n    Preserve the main learning objectives but adjust the complexity accordingly." ++
  "\n    Return the content as a title and description only.\n    "

/-- The result built from a backend response: the regex captures for Title
(single line) and Description (DOTALL), each falling back to the original title
and to the whole response respectively. -/
def adaptedResult (content : ContentItem) (targetDifficulty : Int)
    (adaptation : String) : AdaptResult :=
  { title := some ((reSearchLabel "Title" false adaptation).getD content.title)
    description := some ((reSearchLabel "Description" true adaptation).getD adaptation)
    original_difficulty := some content.difficultyBase
    target_difficulty := some targetDifficulty
    adapted := true }

/-- The dictionary of the blanket except branch of adapt_content_difficulty;
original_title is the content title when the content was already fetched and
the string Unknown otherwise, and there is no description key at all. -/
def adaptErrorResult (message : String) (originalTitle : String) : AdaptResult :=
  { error := some ("Could not adapt content: " ++ message)
    original_title := some originalTitle
    adapted := false }

/-- ai_engine.content_generator.adapt_content_difficulty. The result triple is
(returned dictionary, cache after the call, backend invocation count). A
missing content row (Content.DoesNotExist) and a failing get_current_adapter()
are caught by the blanket except; a cached JSON string is always truthy, so a
present cache entry is always a hit. The function never raises to its caller. -/
def adapt_content_difficulty (contents : List ContentItem)
    (adapterGet : Except String (String → String))
    (cache : CacheStore AdaptResult) (contentId : Nat) (targetDifficulty : Int) :
    AdaptResult × CacheStore AdaptResult × Nat :=
  match contents.find? (fun c => c.id == contentId) with
  | none =>
      (adaptErrorResult "Content matching query does not exist." "Unknown", cache, 0)
  | some content =>
      let key := adaptKey contentId targetDifficulty
      match cacheGet cache key with
      | some cached => (cached, cache, 0)
      | none =>
          if content.difficultyBase == targetDifficulty then
            let result := unchangedResult content
            (result, cacheSet cache key result, 0)
          else
            match adapterGet with
            | .error e => (adaptErrorResult e content.title, cache, 0)
            | .ok gen =>
                let adaptation := gen (adaptPrompt content targetDifficulty)
                let result := adaptedResult content targetDifficulty adaptation
                (result, cacheSet cache key result, 1)

/-! ### Concrete fixtures used by witnesses and counterexamples -/

/-- A content item the fixture user has started (viewed at 50 percent). -/
def contentA : ContentItem := ⟨1, "A", "descA", 1, "lesson", 4, 5⟩

/-- A content item the fixture user has never seen, with higher raw relevance. -/
def contentB : ContentItem := ⟨2, "B", "descB", 1, "lesson", 2, 3⟩

/-- Fixture database: one user in age group 1, two candidates, one in-progress
record. -/
def db0 : RecDB := ⟨[⟨1, some 1⟩], [contentA, contentB], [⟨1, some 1, 50⟩]⟩

/-- Fixture content row for the adaptation claims. -/
def contentC : ContentItem := ⟨1, "T0", "D0", 1, "lesson", 2, 0⟩

/-- Curated store holding one non-empty explanation. -/
def curatedStore1 : List CuratedExplanation :=
  [⟨"loops", "space", "Kids 5-8", "curated text"⟩]

/-- Curated store holding one entry whose explanation text is empty. -/
def curatedStore2 : List CuratedExplanation :=
  [⟨"loops", "space", "Kids 5-8", ""⟩]

/-! ### Claims -/

/-- Claim C10: for every active backend adapter, including the mock variant,
get_model_info reports is_mock = false, because the code tests whether the name
MockAdapter is bound in the utils module global scope — which it never is —
instead of inspecting the adapter instance. -/
theorem C10_model_info_is_mock_always_false (adapter : AdapterInstance) :
    (get_model_info adapter).is_mock = false := by
  simp [get_model_info, utilsModuleGlobals]

/-- Claim C6: a user with no progress record at completion at least 75 receives
recommended difficulty 1, and any internal failure during estimation (the
Except.error branch of the modelled ORM access) also returns 1. -/
theorem C6_difficulty_floor_and_safe_default (records : List CompletionRecord)
    (userId : Nat) (e : String) :
    (completedOf records userId = [] →
      get_appropriate_difficulty_level (.ok records) userId = 1) ∧
    get_appropriate_difficulty_level (.error e) userId = 1 := by
  constructor
  · intro h
    simp [get_appropriate_difficulty_level, h]
  · rfl

/-- Witness for C6 at a concrete input: one record below the completion
threshold, and a failing fetch. -/
theorem C6_witness :
    get_appropriate_difficulty_level (.ok [⟨1, 50, some 3⟩]) 1 = 1 ∧
    get_appropriate_difficulty_level (.error "db down") 1 = 1 :=
  ⟨(C6_difficulty_floor_and_safe_default [⟨1, 50, some 3⟩] 1 "db down").1 (by decide),
   (C6_difficulty_floor_and_safe_default [⟨1, 50, some 3⟩] 1 "db down").2⟩
/-- Claim C5: a user whose completed records (completion at least 75) include at
least a 70 percent fraction with completion at least 90 receives
min(5, round(mean content difficulty) + 1), the mean being rounded half-to-even
and clamped to the range 1..5 before the increment. -/
theorem C5_high_performer_boost (records : List CompletionRecord) (userId : Nat)
    (hne : completedOf records userId ≠ [])
    (hvals : contentDifficulties (completedOf records userId) ≠ [])
    (hfrac : (7 : ℚ) / 10 ≤
      (((completedOf records userId).filter
          (fun r => decide ((90 : ℚ) ≤ r.completionPercentage))).length : ℚ) /
        ((completedOf records userId).length : ℚ)) :
    get_appropriate_difficulty_level (.ok records) userId =
      min 5 (max 1 (min 5 (pythonRound
        (((contentDifficulties (completedOf records userId)).map
            (fun z => (z : ℚ))).sum /
          (contentDifficulties (completedOf records userId)).length))) + 1) := by
  simp only [get_appropriate_difficulty_level]
  have hie : (completedOf records userId).isEmpty = false := by
    cases hc : completedOf records userId with
    | nil => exact absurd hc hne
    | cons a t => rfl
  rw [hie]
  simp only [Bool.false_eq_true, if_false]
  rw [if_pos hfrac]
  cases hv : contentDifficulties (completedOf records userId) with
  | nil => exact absurd hv hvals
  | cons a t =>
      have havg : avgContentDifficulty (completedOf records userId) =
          some ((((a :: t).map (fun z => (z : ℚ))).sum) / (a :: t).length) := by
        unfold avgContentDifficulty
        rw [hv]
      rw [havg]
      simp only []
      by_cases hq : (((a :: t).map (fun z => (z : ℚ))).sum) / (a :: t).length = 0
      · rw [if_pos hq, hq]
        norm_num [pythonRound]
      · rw [if_neg hq]

/-- Witness for C5: two completed records of difficulties 2 and 4 at completions
95 and 92, so the mean is 3 and the high-performer boost yields 4. -/
theorem C5_witness :
    get_appropriate_difficulty_level (.ok [⟨1, 95, some 2⟩, ⟨1, 92, some 4⟩]) 1 = 4 := by
  have hfrac : (7 : ℚ) / 10 ≤
      (((completedOf [⟨1, 95, some 2⟩, ⟨1, 92, some 4⟩] 1).filter
          (fun r => decide ((90 : ℚ) ≤ r.completionPercentage))).length : ℚ) /
        ((completedOf [⟨1, 95, some 2⟩, ⟨1, 92, some 4⟩] 1).length : ℚ) := by
    have h1 : ((completedOf [⟨1, 95, some 2⟩, ⟨1, 92, some 4⟩] 1).filter
        (fun r => decide ((90 : ℚ) ≤ r.completionPercentage))).length = 2 := by decide
    have h2 : (completedOf [⟨1, 95, some 2⟩, ⟨1, 92, some 4⟩] 1).length = 2 := by decide
    rw [h1, h2]
    norm_num
  have h := C5_high_performer_boost [⟨1, 95, some 2⟩, ⟨1, 92, some 4⟩] 1
    (by decide) (by decide) hfrac
  have hv : contentDifficulties (completedOf [⟨1, 95, some 2⟩, ⟨1, 92, some 4⟩] 1) =
      [2, 4] := by decide
  rw [hv] at h
  rw [h]
  have hmean : (([2, 4] : List Int).map (fun z => (z : ℚ))).sum /
      (([2, 4] : List Int).length : ℚ) = 3 := by
    simp [List.sum_cons]
    norm_num
  rw [hmean]
  have hround : pythonRound 3 = 3 := by
    unfold pythonRound
    norm_num
  rw [hround]
  decide
/-- Claim C3: when the target difficulty equals the content difficulty_base,
adapt_content_difficulty returns the content title and description unchanged
with adapted = false and performs no generation-backend call, for every adapter
state (including a failing one). The cache hypothesis states that any entry
already stored under the adaptation key is the one this function itself writes
for this content, which is the only value the engine ever stores there for a
fixed content row. -/
theorem C3_equal_difficulty_short_circuit (contents : List ContentItem)
    (adapterGet : Except String (String → String)) (cache : CacheStore AdaptResult)
    (contentId : Nat) (content : ContentItem)
    (hfind : contents.find? (fun c => c.id == contentId) = some content)
    (hcache : ∀ r, cacheGet cache (adaptKey contentId content.difficultyBase) = some r →
      r = unchangedResult content) :
    (adapt_content_difficulty contents adapterGet cache contentId
        content.difficultyBase).1 = unchangedResult content ∧
    (adapt_content_difficulty contents adapterGet cache contentId
        content.difficultyBase).2.2 = 0 := by
  unfold adapt_content_difficulty
  rw [hfind]
  simp only
  cases hc : cacheGet cache (adaptKey contentId content.difficultyBase) with
  | some r =>
      simp [hcache r hc]
  | none =>
      rw [if_pos (by simp)]
      exact ⟨rfl, rfl⟩

/-- Witness for C3 at a concrete input: empty cache and an unavailable adapter
(failing construction), target equal to the stored difficulty 2. -/
theorem C3_witness :
    (adapt_content_difficulty [contentC] (.error "OpenAI API key not found") [] 1 2).1 =
      unchangedResult contentC ∧
    (adapt_content_difficulty [contentC] (.error "OpenAI API key not found") [] 1 2).2.2 = 0 :=
  C3_equal_difficulty_short_circuit [contentC] (.error "OpenAI API key not found") [] 1
    contentC (by decide)
    (fun r hr => by simp [cacheGet] at hr)
/-- The fallback string contains no Title label, so the title regex does not
match it. -/
theorem titleSearch_fallback : reSearchLabel "Title" false fallbackText = none := by
  decide

/-- The fallback string contains no Description label either. -/
theorem descriptionSearch_fallback :
    reSearchLabel "Description" true fallbackText = none := by
  decide

/-- Counterexample for claim C1: with content of difficulty 2, target 4, an
empty cache and a backend whose transport call fails, adapt_content_difficulty
returns adapted = true (not false), no error field, and the adapter fallback
string as description (not the original description). The claimed error path is
never taken because the adapter swallows the transport failure. -/
theorem C1_counterexample :
    ((adapt_content_difficulty [contentC]
        (.ok (fun _ => openai_generate_text (.error "connection refused"))) [] 1 4).1.adapted
        = true) ∧
    (adapt_content_difficulty [contentC]
        (.ok (fun _ => openai_generate_text (.error "connection refused"))) [] 1 4).1.error
        = none ∧
    (adapt_content_difficulty [contentC]
        (.ok (fun _ => openai_generate_text (.error "connection refused"))) [] 1 4).1.description
        = some fallbackText ∧
    (adapt_content_difficulty [contentC]
        (.ok (fun _ => openai_generate_text (.error "connection refused"))) [] 1 4).1.description
        ≠ some "D0" := by
  refine ⟨?_, ?_, ?_, ?_⟩ <;> decide

/-- Claim C1 amended: when the Generation Backend transport call fails, the
adapter swallows the failure and returns a fixed fallback string, so
adapt_content_difficulty does not raise (the embedding is total) but returns
adapted = true with the original title, the fallback string as the description,
and no error field; the cached entry records the same degraded payload. -/
theorem C1_transport_failure_degraded_adaptation (contents : List ContentItem)
    (contentId : Nat) (content : ContentItem) (cache : CacheStore AdaptResult)
    (target : Int) (err : String)
    (hfind : contents.find? (fun c => c.id == contentId) = some content)
    (hmiss : cacheGet cache (adaptKey contentId target) = none)
    (hne : content.difficultyBase ≠ target) :
    adapt_content_difficulty contents
        (.ok (fun _ => openai_generate_text (.error err))) cache contentId target =
      ({ title := some content.title
         description := some fallbackText
         original_difficulty := some content.difficultyBase
         target_difficulty := some target
         adapted := true },
       cacheSet cache (adaptKey contentId target)
         { title := some content.title
           description := some fallbackText
           original_difficulty := some content.difficultyBase
           target_difficulty := some target
           adapted := true }, 1) := by
  unfold adapt_content_difficulty
  rw [hfind]
  simp only
  rw [hmiss]
  simp only
  rw [if_neg (by simp [hne])]
  simp [adaptedResult, openai_generate_text, titleSearch_fallback,
    descriptionSearch_fallback]

/-- Witness for C1 amended at a concrete input: difficulty 2 content, target 4,
empty cache, failing transport. -/
theorem C1_witness :
    adapt_content_difficulty [contentC]
        (.ok (fun _ => openai_generate_text (.error "timeout"))) [] 1 4 =
      ({ title := some contentC.title
         description := some fallbackText
         original_difficulty := some contentC.difficultyBase
         target_difficulty := some 4
         adapted := true },
       cacheSet [] (adaptKey 1 4)
         { title := some contentC.title
           description := some fallbackText
           original_difficulty := some contentC.difficultyBase
           target_difficulty := some 4
           adapted := true }, 1) :=
  C1_transport_failure_degraded_adaptation [contentC] 1 contentC [] 4 "timeout"
    (by decide) (by decide) (by decide)

/-- Counterexample for claim C2, in two parts. First, the cache is probed
before the curated store: with a curated entry present but a stale truthy cache
entry under the explanation key, the call returns the cached text rather than
the curated text. Second, a curated entry whose text is empty is falsy, so the
call falls through to generation and the backend is invoked. -/
theorem C2_counterexample :
    (curatedLookup curatedStore1 "loops" "space" (some "Kids 5-8") = some "curated text" ∧
      (generate_themed_explanation ⟨curatedStore1, .ok (fun _ => "generated")⟩
        [("themed_explanation:loops:space:Kids 5-8", "stale")]
        "loops" "space" (some "Kids 5-8") none).1 = "stale" ∧
      ("stale" : String) ≠ "curated text") ∧
    (curatedLookup curatedStore2 "loops" "space" (some "Kids 5-8") = some "" ∧
      (generate_themed_explanation ⟨curatedStore2, .ok (fun _ => "generated")⟩
        [] "loops" "space" (some "Kids 5-8") none).2.2 = 1 ∧
      (generate_themed_explanation ⟨curatedStore2, .ok (fun _ => "generated")⟩
        [] "loops" "space" (some "Kids 5-8") none).1 = "generated") := by
  refine ⟨⟨?_, ?_, ?_⟩, ⟨?_, ?_, ?_⟩⟩ <;> decide

/-- Claim C2 amended: when the curated store holds a matching entry with
non-empty text and the cache holds no truthy entry under the explanation key,
generate_themed_explanation returns exactly the curated text, caches it, and
never invokes the Generation Backend. -/
theorem C2_curated_precedence (env : GenEnv) (cache : CacheStore String)
    (concept theme : String) (ageGroup baseExplanation : Option String) (e : String)
    (hcur : curatedLookup env.curated concept theme ageGroup = some e)
    (hne : e ≠ "")
    (hmiss : ∀ s, cacheGet cache (themedKey concept theme ageGroup) = some s → s = "") :
    generate_themed_explanation env cache concept theme ageGroup baseExplanation =
      (e, cacheSet cache (themedKey concept theme ageGroup) e, 0) := by
  have huncached : themedUncached env cache (themedKey concept theme ageGroup)
      concept theme ageGroup baseExplanation =
      (e, cacheSet cache (themedKey concept theme ageGroup) e, 0) := by
    unfold themedUncached
    rw [hcur]
    simp only
    rw [if_neg (by simp [hne])]
  simp only [generate_themed_explanation]
  cases hc : cacheGet cache (themedKey concept theme ageGroup) with
  | none => exact huncached
  | some s =>
      have hs : s = "" := hmiss s hc
      subst hs
      simpa using huncached

/-- Witness for C2 amended at a concrete input: one curated entry, empty cache,
a working backend that is nevertheless never called. -/
theorem C2_witness :
    generate_themed_explanation ⟨curatedStore1, .ok (fun _ => "generated")⟩ []
        "loops" "space" (some "Kids 5-8") none =
      ("curated text",
       cacheSet [] (themedKey "loops" "space" (some "Kids 5-8")) "curated text", 0) :=
  C2_curated_precedence ⟨curatedStore1, .ok (fun _ => "generated")⟩ []
    "loops" "space" (some "Kids 5-8") none "curated text"
    (by decide) (by decide)
    (fun s hs => by simp [cacheGet] at hs)

/-- A freshly written cache entry is read back. -/
theorem cacheGet_cacheSet_self {α : Type} (cache : CacheStore α) (key : String)
    (v : α) : cacheGet (cacheSet cache key v) key = some v := by
  simp [cacheGet, cacheSet, List.find?]

/-- Equation: a truthy cache hit returns the cached text unchanged. -/
theorem themed_eq_of_hit (env : GenEnv) (cache : CacheStore String)
    (concept theme : String) (ageGroup baseExplanation : Option String) (s : String)
    (hc : cacheGet cache (themedKey concept theme ageGroup) = some s) (hs : s ≠ "") :
    generate_themed_explanation env cache concept theme ageGroup baseExplanation =
      (s, cache, 0) := by
  simp only [generate_themed_explanation, hc]
  simp [hs]

/-- Equation: a cache miss defers to the post-cache stage. -/
theorem themed_eq_uncached_of_miss (env : GenEnv) (cache : CacheStore String)
    (concept theme : String) (ageGroup baseExplanation : Option String)
    (hc : cacheGet cache (themedKey concept theme ageGroup) = none) :
    generate_themed_explanation env cache concept theme ageGroup baseExplanation =
      themedUncached env cache (themedKey concept theme ageGroup) concept theme
        ageGroup baseExplanation := by
  simp only [generate_themed_explanation, hc]

/-- Equation: a cached empty string is falsy and also defers to the post-cache
stage. -/
theorem themed_eq_uncached_of_empty (env : GenEnv) (cache : CacheStore String)
    (concept theme : String) (ageGroup baseExplanation : Option String)
    (hc : cacheGet cache (themedKey concept theme ageGroup) = some "") :
    generate_themed_explanation env cache concept theme ageGroup baseExplanation =
      themedUncached env cache (themedKey concept theme ageGroup) concept theme
        ageGroup baseExplanation := by
  simp only [generate_themed_explanation, hc]
  simp

/-- Equation: a truthy curated entry is cached and returned. -/
theorem uncached_eq_of_curated (env : GenEnv) (cache : CacheStore String)
    (key concept theme : String) (ageGroup baseExplanation : Option String)
    (e : String)
    (hcur : curatedLookup env.curated concept theme ageGroup = some e) (he : e ≠ "") :
    themedUncached env cache key concept theme ageGroup baseExplanation =
      (e, cacheSet cache key e, 0) := by
  simp only [themedUncached, hcur]
  simp [he]

/-- Equation: no curated entry defers to generation. -/
theorem uncached_eq_generate_of_none (env : GenEnv) (cache : CacheStore String)
    (key concept theme : String) (ageGroup baseExplanation : Option String)
    (hcur : curatedLookup env.curated concept theme ageGroup = none) :
    themedUncached env cache key concept theme ageGroup baseExplanation =
      themedGenerate env cache key concept theme ageGroup baseExplanation := by
  simp only [themedUncached, hcur]

/-- Equation: an empty curated entry is falsy and defers to generation. -/
theorem uncached_eq_generate_of_empty (env : GenEnv) (cache : CacheStore String)
    (key concept theme : String) (ageGroup baseExplanation : Option String)
    (hcur : curatedLookup env.curated concept theme ageGroup = some "") :
    themedUncached env cache key concept theme ageGroup baseExplanation =
      themedGenerate env cache key concept theme ageGroup baseExplanation := by
  simp only [themedUncached, hcur]
  simp

/-- Equation: a working adapter generates, caches and returns the text. -/
theorem generate_eq_of_ok (env : GenEnv) (cache : CacheStore String)
    (key concept theme : String) (ageGroup baseExplanation : Option String)
    (gen : String → String) (hA : env.adapterGet = .ok gen) :
    themedGenerate env cache key concept theme ageGroup baseExplanation =
      (gen (themedPrompt concept theme ageGroup baseExplanation),
       cacheSet cache key (gen (themedPrompt concept theme ageGroup baseExplanation)),
       1) := by
  simp only [themedGenerate, hA]

/-- Equation: a failing adapter construction degrades without caching and
without invoking the backend. -/
theorem generate_eq_of_error (env : GenEnv) (cache : CacheStore String)
    (key concept theme : String) (ageGroup baseExplanation : Option String)
    (msg : String) (hA : env.adapterGet = .error msg) :
    themedGenerate env cache key concept theme ageGroup baseExplanation =
      (themedDegraded concept theme baseExplanation, cache, 0) := by
  simp only [themedGenerate, hA]

/-- Equation: missing content row takes the except branch. -/
theorem adapt_eq_of_no_content (contents : List ContentItem)
    (adapterGet : Except String (String → String)) (acache : CacheStore AdaptResult)
    (contentId : Nat) (target : Int)
    (hfind : contents.find? (fun c => c.id == contentId) = none) :
    adapt_content_difficulty contents adapterGet acache contentId target =
      (adaptErrorResult "Content matching query does not exist." "Unknown",
       acache, 0) := by
  simp only [adapt_content_difficulty, hfind]

/-- Equation: a cache hit returns the cached payload. -/
theorem adapt_eq_of_hit (contents : List ContentItem) (content : ContentItem)
    (adapterGet : Except String (String → String)) (acache : CacheStore AdaptResult)
    (contentId : Nat) (target : Int) (r : AdaptResult)
    (hfind : contents.find? (fun c => c.id == contentId) = some content)
    (hc : cacheGet acache (adaptKey contentId target) = some r) :
    adapt_content_difficulty contents adapterGet acache contentId target =
      (r, acache, 0) := by
  simp only [adapt_content_difficulty, hfind, hc]

/-- Equation: equal difficulty short-circuits, caching the unchanged payload. -/
theorem adapt_eq_of_equal (contents : List ContentItem) (content : ContentItem)
    (adapterGet : Except String (String → String)) (acache : CacheStore AdaptResult)
    (contentId : Nat)
    (hfind : contents.find? (fun c => c.id == contentId) = some content)
    (hc : cacheGet acache (adaptKey contentId content.difficultyBase) = none) :
    adapt_content_difficulty contents adapterGet acache contentId
        content.difficultyBase =
      (unchangedResult content,
       cacheSet acache (adaptKey contentId content.difficultyBase)
         (unchangedResult content), 0) := by
  simp only [adapt_content_difficulty, hfind, hc]
  simp

/-- Equation: a failing adapter construction takes the except branch with the
content title. -/
theorem adapt_eq_of_error (contents : List ContentItem) (content : ContentItem)
    (acache : CacheStore AdaptResult) (contentId : Nat) (target : Int) (msg : String)
    (hfind : contents.find? (fun c => c.id == contentId) = some content)
    (hc : cacheGet acache (adaptKey contentId target) = none)
    (hne : content.difficultyBase ≠ target) :
    adapt_content_difficulty contents (.error msg) acache contentId target =
      (adaptErrorResult msg content.title, acache, 0) := by
  simp only [adapt_content_difficulty, hfind, hc]
  simp [hne]

/-- Equation: a working adapter generates, caches and returns the adapted
payload. -/
theorem adapt_eq_of_ok (contents : List ContentItem) (content : ContentItem)
    (acache : CacheStore AdaptResult) (contentId : Nat) (target : Int)
    (gen : String → String)
    (hfind : contents.find? (fun c => c.id == contentId) = some content)
    (hc : cacheGet acache (adaptKey contentId target) = none)
    (hne : content.difficultyBase ≠ target) :
    adapt_content_difficulty contents (.ok gen) acache contentId target =
      (adaptedResult content target (gen (adaptPrompt content target)),
       cacheSet acache (adaptKey contentId target)
         (adaptedResult content target (gen (adaptPrompt content target))), 1) := by
  simp only [adapt_content_difficulty, hfind, hc]
  simp [hne]

/-- The second call is a cache hit after the generation stage ran, or repeats
the degraded branch identically; used when the cache misses and the curated
store gives nothing truthy. -/
theorem themed_idem_generate (env : GenEnv) (cache : CacheStore String)
    (concept theme : String) (ageGroup baseExplanation : Option String)
    (hmiss : ∀ s, cacheGet cache (themedKey concept theme ageGroup) = some s → s = "")
    (hcur : curatedLookup env.curated concept theme ageGroup = none ∨
      curatedLookup env.curated concept theme ageGroup = some "")
    (h1 : (themedGenerate env cache (themedKey concept theme ageGroup) concept theme
        ageGroup baseExplanation).1 ≠ "") :
    generate_themed_explanation env
        (themedGenerate env cache (themedKey concept theme ageGroup) concept theme
          ageGroup baseExplanation).2.1 concept theme ageGroup baseExplanation =
      ((themedGenerate env cache (themedKey concept theme ageGroup) concept theme
          ageGroup baseExplanation).1,
       (themedGenerate env cache (themedKey concept theme ageGroup) concept theme
          ageGroup baseExplanation).2.1, 0) := by
  cases hA : env.adapterGet with
  | ok gen =>
      have hg := generate_eq_of_ok env cache (themedKey concept theme ageGroup)
        concept theme ageGroup baseExplanation gen hA
      rw [hg] at h1 ⊢
      exact themed_eq_of_hit _ _ _ _ _ _ _ (cacheGet_cacheSet_self cache _ _) h1
  | error msg =>
      have hg := generate_eq_of_error env cache (themedKey concept theme ageGroup)
        concept theme ageGroup baseExplanation msg hA
      rw [hg]
      have hstep : generate_themed_explanation env cache concept theme ageGroup
          baseExplanation = themedUncached env cache
            (themedKey concept theme ageGroup) concept theme ageGroup baseExplanation := by
        cases hcc : cacheGet cache (themedKey concept theme ageGroup) with
        | none =>
            exact themed_eq_uncached_of_miss env cache concept theme ageGroup
              baseExplanation hcc
        | some s =>
            have hs := hmiss s hcc
            subst hs
            exact themed_eq_uncached_of_empty env cache concept theme ageGroup
              baseExplanation hcc
      rcases hcur with hcur | hcur
      · rw [hstep,
          uncached_eq_generate_of_none env cache (themedKey concept theme ageGroup)
            concept theme ageGroup baseExplanation hcur,
          generate_eq_of_error env cache (themedKey concept theme ageGroup)
            concept theme ageGroup baseExplanation msg hA]
      · rw [hstep,
          uncached_eq_generate_of_empty env cache (themedKey concept theme ageGroup)
            concept theme ageGroup baseExplanation hcur,
          generate_eq_of_error env cache (themedKey concept theme ageGroup)
            concept theme ageGroup baseExplanation msg hA]

/-- The second call agrees with the first after the post-cache stage ran, when
the original cache held nothing truthy under the key. -/
theorem themed_idem_uncached (env : GenEnv) (cache : CacheStore String)
    (concept theme : String) (ageGroup baseExplanation : Option String)
    (hmiss : ∀ s, cacheGet cache (themedKey concept theme ageGroup) = some s → s = "")
    (h1 : (themedUncached env cache (themedKey concept theme ageGroup) concept theme
        ageGroup baseExplanation).1 ≠ "") :
    generate_themed_explanation env
        (themedUncached env cache (themedKey concept theme ageGroup) concept theme
          ageGroup baseExplanation).2.1 concept theme ageGroup baseExplanation =
      ((themedUncached env cache (themedKey concept theme ageGroup) concept theme
          ageGroup baseExplanation).1,
       (themedUncached env cache (themedKey concept theme ageGroup) concept theme
          ageGroup baseExplanation).2.1, 0) := by
  cases hcur : curatedLookup env.curated concept theme ageGroup with
  | some e =>
      by_cases he : e = ""
      · subst he
        have hu := uncached_eq_generate_of_empty env cache
          (themedKey concept theme ageGroup) concept theme ageGroup
          baseExplanation hcur
        rw [hu] at h1 ⊢
        exact themed_idem_generate env cache concept theme ageGroup baseExplanation
          hmiss (Or.inr hcur) h1
      · have hu := uncached_eq_of_curated env cache
          (themedKey concept theme ageGroup) concept theme ageGroup
          baseExplanation e hcur he
        rw [hu]
        exact themed_eq_of_hit _ _ _ _ _ _ _ (cacheGet_cacheSet_self cache _ e) he
  | none =>
      have hu := uncached_eq_generate_of_none env cache
        (themedKey concept theme ageGroup) concept theme ageGroup
        baseExplanation hcur
      rw [hu] at h1 ⊢
      exact themed_idem_generate env cache concept theme ageGroup baseExplanation
        hmiss (Or.inl hcur) h1

/-- Claim C9 amended: for a fixed environment, a repeated call with identical
parameters returns the identical result without invoking the Generation
Backend — unconditionally for adapt_content_difficulty, and for
generate_themed_explanation provided the first call returned a non-empty text
(an empty generated text is cached but read back as a cache miss, so the second
call generates again). Presence of a cache entry models being inside the TTL
window. -/
theorem C9_cache_idempotence (env : GenEnv) (cache : CacheStore String)
    (concept theme : String) (ageGroup baseExplanation : Option String)
    (contents : List ContentItem) (adapterGet : Except String (String → String))
    (acache : CacheStore AdaptResult) (contentId : Nat) (target : Int) :
    ((generate_themed_explanation env cache concept theme ageGroup
        baseExplanation).1 ≠ "" →
      generate_themed_explanation env
          (generate_themed_explanation env cache concept theme ageGroup
            baseExplanation).2.1 concept theme ageGroup baseExplanation =
        ((generate_themed_explanation env cache concept theme ageGroup
            baseExplanation).1,
         (generate_themed_explanation env cache concept theme ageGroup
            baseExplanation).2.1, 0)) ∧
    (adapt_content_difficulty contents adapterGet
        (adapt_content_difficulty contents adapterGet acache contentId
          target).2.1 contentId target =
      ((adapt_content_difficulty contents adapterGet acache contentId target).1,
       (adapt_content_difficulty contents adapterGet acache contentId target).2.1,
       0)) := by
  constructor
  · intro h1
    cases hcc : cacheGet cache (themedKey concept theme ageGroup) with
    | some s =>
        by_cases hs : s = ""
        · subst hs
          have hfirst := themed_eq_uncached_of_empty env cache concept theme
            ageGroup baseExplanation hcc
          rw [hfirst] at h1 ⊢
          exact themed_idem_uncached env cache concept theme ageGroup
            baseExplanation
            (fun s h => by rw [hcc] at h; exact (Option.some.inj h).symm) h1
        · have hfirst := themed_eq_of_hit env cache concept theme ageGroup
            baseExplanation s hcc hs
          rw [hfirst]
          exact themed_eq_of_hit _ _ _ _ _ _ _ hcc hs
    | none =>
        have hfirst := themed_eq_uncached_of_miss env cache concept theme ageGroup
          baseExplanation hcc
        rw [hfirst] at h1 ⊢
        exact themed_idem_uncached env cache concept theme ageGroup baseExplanation
          (fun s h => by rw [hcc] at h; exact Option.noConfusion h) h1
  · cases hfind : contents.find? (fun c => c.id == contentId) with
    | none =>
        have hfirst := adapt_eq_of_no_content contents adapterGet acache contentId
          target hfind
        rw [hfirst]
        exact adapt_eq_of_no_content _ _ _ _ _ hfind
    | some content =>
        cases hcc : cacheGet acache (adaptKey contentId target) with
        | some r =>
            have hfirst := adapt_eq_of_hit contents content adapterGet acache
              contentId target r hfind hcc
            rw [hfirst]
            exact adapt_eq_of_hit _ _ _ _ _ _ _ hfind hcc
        | none =>
            by_cases heq : content.difficultyBase = target
            · subst heq
              have hfirst := adapt_eq_of_equal contents content adapterGet acache
                contentId hfind hcc
              rw [hfirst]
              exact adapt_eq_of_hit _ _ _ _ _ _ _ hfind
                (cacheGet_cacheSet_self acache _ _)
            · cases hA : adapterGet with
              | error msg =>
                  subst hA
                  have hfirst := adapt_eq_of_error contents content acache
                    contentId target msg hfind hcc heq
                  rw [hfirst]
                  exact adapt_eq_of_error _ _ _ _ _ _ hfind hcc heq
              | ok gen =>
                  subst hA
                  have hfirst := adapt_eq_of_ok contents content acache contentId
                    target gen hfind hcc heq
                  rw [hfirst]
                  exact adapt_eq_of_hit _ _ _ _ _ _ _ hfind
                    (cacheGet_cacheSet_self acache _ _)

/-- Counterexample for claim C9 as stated: a backend returning an empty string
leads to an empty cached value, which the second identical call treats as a
cache miss, so the second call invokes the Generation Backend again. -/
theorem C9_counterexample :
    (generate_themed_explanation ⟨[], .ok (fun _ => "")⟩
        ((generate_themed_explanation ⟨[], .ok (fun _ => "")⟩ [] "x" "y" none
            none).2.1) "x" "y" none none).2.2 = 1 := by
  decide

/-- Witness for C9 amended: the themed part at the curated fixture (first
result is the non-empty curated text), and the adaptation part at the failing
adapter fixture. -/
theorem C9_witness :
    (generate_themed_explanation ⟨curatedStore1, .ok (fun _ => "gen")⟩
        ((generate_themed_explanation ⟨curatedStore1, .ok (fun _ => "gen")⟩ []
            "loops" "space" (some "Kids 5-8") none).2.1)
        "loops" "space" (some "Kids 5-8") none =
      ((generate_themed_explanation ⟨curatedStore1, .ok (fun _ => "gen")⟩ []
          "loops" "space" (some "Kids 5-8") none).1,
       (generate_themed_explanation ⟨curatedStore1, .ok (fun _ => "gen")⟩ []
          "loops" "space" (some "Kids 5-8") none).2.1, 0)) ∧
    (adapt_content_difficulty [contentC] (.error "no key")
        (adapt_content_difficulty [contentC] (.error "no key") [] 1 4).2.1 1 4 =
      ((adapt_content_difficulty [contentC] (.error "no key") [] 1 4).1,
       (adapt_content_difficulty [contentC] (.error "no key") [] 1 4).2.1, 0)) :=
  ⟨(C9_cache_idempotence ⟨curatedStore1, .ok (fun _ => "gen")⟩ [] "loops" "space"
      (some "Kids 5-8") none [contentC] (.error "no key") [] 1 4).1 (by decide),
   (C9_cache_idempotence ⟨curatedStore1, .ok (fun _ => "gen")⟩ [] "loops" "space"
      (some "Kids 5-8") none [contentC] (.error "no key") [] 1 4).2⟩

/-- Claim C4: the recommendation list equals the sorted candidate list ordered
by in_progress descending, relevance_score descending, difficulty_base
ascending, creation time descending, truncated to at most count items and then
formatted; the sorted candidate list is sorted under that order, and every
in-progress item (annotation 10) precedes every never-seen item (annotation 0)
in it. -/
theorem C4_recommendation_ordering (db : RecDB) (userId : Nat) (count : Int)
    (contentType : Option String) :
    getPersonalizedRecommendations db userId count contentType =
      ((sortedCandidates db userId contentType).take count.toNat).map formatRec ∧
    (sortedCandidates db userId contentType).Sorted recLE ∧
    ∀ (i j : Fin (sortedCandidates db userId contentType).length),
      ((sortedCandidates db userId contentType).get i).inProgress = 10 →
      ((sortedCandidates db userId contentType).get j).inProgress = 0 →
      (i : Nat) < (j : Nat) := by
  refine ⟨?_, ?_, ?_⟩
  · unfold getPersonalizedRecommendations sortedCandidates
    cases hfind : db.users.find? (fun u => u.id == userId) with
    | none => simp
    | some user =>
        simp only
        by_cases hcount : count < 0
        · rw [if_pos hcount]
          have h0 : count.toNat = 0 := Int.toNat_of_nonpos (le_of_lt hcount)
          rw [h0]
          simp
        · rw [if_neg hcount]
  · unfold sortedCandidates
    cases hfind : db.users.find? (fun u => u.id == userId) with
    | none => exact List.sorted_nil
    | some user => exact List.sorted_insertionSort recLE _
  · intro i j h10 h0
    have hsorted : (sortedCandidates db userId contentType).Sorted recLE := by
      unfold sortedCandidates
      cases hfind : db.users.find? (fun u => u.id == userId) with
      | none => exact List.sorted_nil
      | some user => exact List.sorted_insertionSort recLE _
    rcases Nat.lt_trichotomy (i : Nat) (j : Nat) with hlt | heq | hgt
    · exact hlt
    · exfalso
      have hij : i = j := Fin.ext heq
      rw [hij, h0] at h10
      exact absurd h10 (by decide)
    · exfalso
      have hrel := hsorted.rel_get_of_lt (show j < i from hgt)
      unfold recLE lex4 recKey at hrel
      rw [h10, h0] at hrel
      omega

/-- Witness for C4: in the fixture database the started item (content 1,
difficulty 4, reported score 11) is ranked before the never-seen item
(content 2, difficulty 2, reported score 5), at indices 0 and 1. -/
theorem C4_witness :
    getPersonalizedRecommendations db0 1 5 none =
      ((sortedCandidates db0 1 none).take (5 : Int).toNat).map formatRec ∧
    (0 : Nat) < 1 :=
  ⟨(C4_recommendation_ordering db0 1 5 none).1,
   (C4_recommendation_ordering db0 1 5 none).2.2 ⟨0, by decide⟩ ⟨1, by decide⟩
     (by decide) (by decide)⟩

/-- Claim C7: every returned recommendation corresponds to a catalog content
item in the configured age group of the requesting user. -/
theorem C7_age_group_filtering (db : RecDB) (userId : Nat) (count : Int)
    (contentType : Option String) (r : Recommendation)
    (hr : r ∈ getPersonalizedRecommendations db userId count contentType) :
    ∃ u, db.users.find? (fun u => u.id == userId) = some u ∧
      ∃ c ∈ db.contents, c.id = r.content_id ∧ some c.ageGroupId = u.ageGroupId := by
  unfold getPersonalizedRecommendations at hr
  cases hfind : db.users.find? (fun u => u.id == userId) with
  | none =>
      rw [hfind] at hr
      simp at hr
  | some user =>
      rw [hfind] at hr
      simp only at hr
      by_cases hcount : count < 0
      · rw [if_pos hcount] at hr
        simp at hr
      · rw [if_neg hcount] at hr
        obtain ⟨a, ha, rfl⟩ := List.mem_map.1 hr
        have ha2 : a ∈ List.insertionSort recLE
            ((excludedCandidates db userId user contentType).map (annotate db userId)) :=
          List.take_subset _ _ ha
        have ha3 : a ∈ (excludedCandidates db userId user contentType).map
            (annotate db userId) := (List.mem_insertionSort recLE).1 ha2
        obtain ⟨c, hc, rfl⟩ := List.mem_map.1 ha3
        refine ⟨user, rfl, c, ?_, rfl, ?_⟩
        · unfold excludedCandidates at hc
          by_cases hnull : (completedContentIds db userId).any (fun oc => oc == none)
          · rw [if_pos hnull] at hc
            simp at hc
          · rw [if_neg hnull] at hc
            have hbase : c ∈ baseCandidates db user contentType :=
              List.mem_of_mem_filter hc
            unfold baseCandidates at hbase
            exact List.mem_of_mem_filter (List.mem_of_mem_filter hbase)
        · unfold excludedCandidates at hc
          by_cases hnull : (completedContentIds db userId).any (fun oc => oc == none)
          · rw [if_pos hnull] at hc
            simp at hc
          · rw [if_neg hnull] at hc
            have hbase : c ∈ baseCandidates db user contentType :=
              List.mem_of_mem_filter hc
            unfold baseCandidates at hbase
            have hage := List.of_mem_filter (List.mem_of_mem_filter hbase)
            exact eq_of_beq hage

/-- Witness for C7: the first returned recommendation of the fixture database
comes from content 1 in the user age group 1. -/
theorem C7_witness :
    ∃ u, db0.users.find? (fun u => u.id == 1) = some u ∧
      ∃ c ∈ db0.contents, c.id = (⟨1, "A", "lesson", 4, 11⟩ : Recommendation).content_id ∧
        some c.ageGroupId = u.ageGroupId :=
  C7_age_group_filtering db0 1 5 none ⟨1, "A", "lesson", 4, 11⟩ (by decide)

/-- Claim C8: get_personalized_recommendations never raises (the embedding is a
total function); a missing user yields the empty list, and the result never
exceeds count items (a negative count raises inside the try block and also
yields the empty list). -/
theorem C8_no_raise_and_bounded (db : RecDB) (userId : Nat) (count : Int)
    (contentType : Option String) :
    (db.users.find? (fun u => u.id == userId) = none →
      getPersonalizedRecommendations db userId count contentType = []) ∧
    (getPersonalizedRecommendations db userId count contentType).length ≤
      count.toNat := by
  constructor
  · intro h
    unfold getPersonalizedRecommendations
    rw [h]
  · unfold getPersonalizedRecommendations
    cases hfind : db.users.find? (fun u => u.id == userId) with
    | none => simp
    | some user =>
        simp only
        by_cases hcount : count < 0
        · rw [if_pos hcount]
          simp
        · rw [if_neg hcount]
          rw [List.length_map]
          exact (List.length_take_le _ _)

/-- Witness for C8: the fixture database has no user 99, so the call returns
the empty list, and the bound holds at the concrete input. -/
theorem C8_witness :
    getPersonalizedRecommendations db0 99 5 none = [] ∧
    (getPersonalizedRecommendations db0 99 5 none).length ≤ (5 : Int).toNat :=
  ⟨(C8_no_raise_and_bounded db0 99 5 none).1 (by decide),
   (C8_no_raise_and_bounded db0 99 5 none).2⟩
